import Mathlib

/-!
Verification of the `adventure_game` repository's animation state machine
(`src/sprites/orc.py`), input-to-intent derivation and camera follow
controller (`src/main.py`, `src/constants.py`), as a shallow embedding in
Lean 4.  Machine floats are modelled by rationals; texture frames are
modelled by abstract identifiers (their row index), since the code only
ever measures sequence lengths and indexes sequences.
-/

namespace AdventureGame

/-! ## Animation state constants (src/sprites/orc.py, lines 5-13) -/

def ANIMATION_STATE_IDLE_RIGHT : Nat := 0
def ANIMATION_STATE_WALK_RIGHT : Nat := 1
def ANIMATION_STATE_ATTACK_1_RIGHT : Nat := 2
def ANIMATION_STATE_ATTACK_2_RIGHT : Nat := 3

def ANIMATION_STATE_IDLE_LEFT : Nat := 5
def ANIMATION_STATE_WALK_LEFT : Nat := 6
def ANIMATION_STATE_ATTACK_1_LEFT : Nat := 7
def ANIMATION_STATE_ATTACK_2_LEFT : Nat := 8

/-! ## Texture sets (OrcSprite.__init__)

`load_100x100_textures(sprite_sheet, row, count)` returns an ordered list
of `count` textures cut from row `row`; a texture is opaque to the logic,
so a frame is embedded as its index within its row.  `OrcSprite.__init__`
appends, in order, the four right-facing rows with frame counts
`[6, 8, 6, 6]` (idle, walk, attack 1, attack 2) and then the same four
rows flipped for left-facing, giving eight sequences at indices 0..7. -/

def load_100x100_textures (count : Nat) : List Nat :=
  List.range count

def sprite_count : List Nat := [6, 8, 6, 6]

def orc_texture_sets : List (List Nat) :=
  sprite_count.map load_100x100_textures ++ sprite_count.map load_100x100_textures

/-! ## Character state

Fields `is_facing_right`, `attack_animation`, `texture_clock`,
`animation_state` are set in `OrcSprite.__init__` / mutated by its
methods; `change_x`, `change_y` are the movement-intent fields inherited
from the engine sprite, written by the input collaborator.
`last_drawn_state` is the sequence key most recently consumed by the
base-class animation update (modelled from the spec, see below). -/

structure OrcState where
  is_facing_right : Bool
  attack_animation : Nat
  texture_clock : ℚ
  animation_state : Nat
  last_drawn_state : Nat
  change_x : ℚ
  change_y : ℚ
deriving DecidableEq

/-- Embeds `OrcSprite.__init__` (src/sprites/orc.py, lines 19-44).  The
Python constructor draws `texture_clock = random.uniform(0, 1)`; the
random sample is exposed as the parameter `r`, constrained to `[0,1)` at
the use sites. -/
def mkOrcSprite (r : ℚ) : OrcState :=
  { is_facing_right := true
    attack_animation := 0
    texture_clock := r
    animation_state := ANIMATION_STATE_IDLE_RIGHT
    last_drawn_state := ANIMATION_STATE_IDLE_RIGHT
    change_x := 0
    change_y := 0 }

/-- Modelled from the spec: `AnimatedSprite.update` (the base class in
`sprites/animated_sprite.py`, which is not among the provided source
files).  Per the spec, the animation clock is the elapsed time since the
current sequence started, reset to 0 whenever the sequence key changes,
and negative elapsed-time inputs are clamped to zero so the clock is
monotonically non-decreasing.  It runs at the start of each tick, before
`OrcSprite.update`'s own branching, so it can only observe key changes
made on earlier ticks. -/
def animated_sprite_update (s : OrcState) (delta_time : ℚ) : OrcState :=
  if s.animation_state ≠ s.last_drawn_state then
    { s with texture_clock := 0, last_drawn_state := s.animation_state }
  else
    { s with texture_clock := s.texture_clock + max delta_time 0 }

/-- Embeds `OrcSprite.attack_1` (src/sprites/orc.py, lines 46-54). -/
def attack_1 (s : OrcState) : OrcState :=
  if s.attack_animation > 0 then s
  else
    { s with
      attack_animation := 1
      texture_clock := 0
      animation_state :=
        if s.is_facing_right then ANIMATION_STATE_ATTACK_1_RIGHT
        else ANIMATION_STATE_ATTACK_1_LEFT }

/-- Embeds `OrcSprite.attack_2` (src/sprites/orc.py, lines 56-64). -/
def attack_2 (s : OrcState) : OrcState :=
  if s.attack_animation > 0 then s
  else
    { s with
      attack_animation := 2
      texture_clock := 0
      animation_state :=
        if s.is_facing_right then ANIMATION_STATE_ATTACK_2_RIGHT
        else ANIMATION_STATE_ATTACK_2_LEFT }

/-- Embeds `OrcSprite.update` (src/sprites/orc.py, lines 66-91).  Python's
`self.texture_sets[self.animation_state]` raises `IndexError` when the
index is out of range, embedded as `none`. -/
def update (s₀ : OrcState) (delta_time : ℚ) : Option OrcState :=
  let s := animated_sprite_update s₀ delta_time
  if s.attack_animation > 0 then
    match orc_texture_sets.get? s.animation_state with
    | none => none
    | some frames =>
      let animation_length : ℚ := (frames.length : ℚ) / 10
      if s.texture_clock ≥ animation_length then
        some { s with attack_animation := 0 }
      else
        some s
  else if s.change_x < 0 then
    some { s with is_facing_right := false,
                  animation_state := ANIMATION_STATE_WALK_LEFT }
  else if s.change_x > 0 then
    some { s with is_facing_right := true,
                  animation_state := ANIMATION_STATE_WALK_RIGHT }
  else if s.change_y ≠ 0 then
    some { s with animation_state :=
        if s.is_facing_right then ANIMATION_STATE_WALK_RIGHT
        else ANIMATION_STATE_WALK_LEFT }
  else
    some { s with animation_state :=
        if s.is_facing_right then ANIMATION_STATE_IDLE_RIGHT
        else ANIMATION_STATE_IDLE_LEFT }

/-! ## Event traces

The surrounding engine drives a character through ticks (`update`),
attack triggers (mouse-button handlers) and writes to the movement-intent
fields (the input collaborator).  Reachable states are those produced by
a finite trace of such events from a freshly constructed sprite. -/

inductive OrcEvent where
  | tick (delta_time : ℚ)
  | attack1
  | attack2
  | setIntent (dx dy : ℚ)
deriving DecidableEq

def orc_step (s : OrcState) : OrcEvent → Option OrcState
  | OrcEvent.tick dt => update s dt
  | OrcEvent.attack1 => some (attack_1 s)
  | OrcEvent.attack2 => some (attack_2 s)
  | OrcEvent.setIntent dx dy => some { s with change_x := dx, change_y := dy }

def orc_run (s : OrcState) : List OrcEvent → Option OrcState
  | [] => some s
  | e :: es =>
    match orc_step s e with
    | none => none
    | some s' => orc_run s' es

/-- The idle sequence keys among the eight `ANIMATION_STATE_*` constants. -/
def isIdleKey (k : Nat) : Prop :=
  k = ANIMATION_STATE_IDLE_RIGHT ∨ k = ANIMATION_STATE_IDLE_LEFT

/-- The walk sequence keys among the eight `ANIMATION_STATE_*` constants. -/
def isWalkKey (k : Nat) : Prop :=
  k = ANIMATION_STATE_WALK_RIGHT ∨ k = ANIMATION_STATE_WALK_LEFT

instance (k : Nat) : Decidable (isIdleKey k) := by
  unfold isIdleKey; infer_instance

instance (k : Nat) : Decidable (isWalkKey k) := by
  unfold isWalkKey; infer_instance

/-! ## Input-to-intent derivation (src/main.py)

`AdventureGameWindow` tracks four boolean key flags and recomputes the
player's `(change_x, change_y)` from them in `update_player_speed`. -/

structure KeyFlags where
  up_pressed : Bool
  down_pressed : Bool
  left_pressed : Bool
  right_pressed : Bool
deriving DecidableEq

/-- Embeds `AdventureGameWindow.update_player_speed` (src/main.py, lines
77-92): both intent components start at 0, then each axis is overwritten
only when exactly one of its two flags is set.  Returns the resulting
`(change_x, change_y)`. -/
def update_player_speed (k : KeyFlags) (player_speed : ℚ) : ℚ × ℚ :=
  let change_y : ℚ :=
    if k.up_pressed && !k.down_pressed then player_speed
    else if k.down_pressed && !k.up_pressed then -player_speed
    else 0
  let change_x : ℚ :=
    if k.left_pressed && !k.right_pressed then -player_speed
    else if k.right_pressed && !k.left_pressed then player_speed
    else 0
  (change_x, change_y)

/-! ## Camera constants (src/constants.py) -/

def DEFAULT_WINDOW_WIDTH : ℚ := 1600
def DEFAULT_WINDOW_HEIGHT : ℚ := 1200
def CAMERA_SPEED : ℚ := 1/10
def VIEWPORT_MARGIN : ℚ := 400
def HORIZONTAL_BOUNDARY : ℚ := DEFAULT_WINDOW_WIDTH / 2 - VIEWPORT_MARGIN
def VERTICAL_BOUNDARY : ℚ := DEFAULT_WINDOW_HEIGHT / 2 - VIEWPORT_MARGIN

/-- Embeds `arcade.LRBT(left, right, bottom, top)`. -/
structure Rect where
  left : ℚ
  right : ℚ
  bottom : ℚ
  top : ℚ
deriving DecidableEq

def CAMERA_BOUNDARY : Rect :=
  { left := -HORIZONTAL_BOUNDARY
    right := HORIZONTAL_BOUNDARY
    bottom := -VERTICAL_BOUNDARY
    top := VERTICAL_BOUNDARY }

/-- Modelled from the spec: one axis of
`arcade.camera.grips.constrain_boundary_xy` (the arcade library routine
called by `scroll_to_player`, whose code is outside this repository).
Per the spec: when the player's offset from the camera exceeds the
boundary on an axis, the target camera position on that axis is shifted
so the player sits exactly on the boundary edge; otherwise the axis
target equals the current camera position. -/
def constrain_axis (cam lo hi p : ℚ) : ℚ :=
  if p - cam > hi then p - hi
  else if p - cam < lo then p - lo
  else cam

/-- Modelled from the spec: `arcade.camera.grips.constrain_boundary_xy`,
applied independently on each axis with the boundary rectangle. -/
def constrain_boundary_xy (cam : ℚ × ℚ) (b : Rect) (p : ℚ × ℚ) : ℚ × ℚ :=
  (constrain_axis cam.1 b.left b.right p.1,
   constrain_axis cam.2 b.bottom b.top p.2)

/-- Modelled from the spec: `arcade.math.lerp_2d a b t`, the componentwise
linear interpolation `a + t * (b - a)`. -/
def lerp_2d (a b : ℚ × ℚ) (t : ℚ) : ℚ × ℚ :=
  (a.1 + t * (b.1 - a.1), a.2 + t * (b.2 - a.2))

/-- One camera tick with an explicit smoothing factor: the step-1 clamped
target followed by the step-2 interpolation. -/
def camera_step (f : ℚ) (cam p : ℚ × ℚ) : ℚ × ℚ :=
  lerp_2d cam (constrain_boundary_xy cam CAMERA_BOUNDARY p) f

/-- Embeds `AdventureGameWindow.scroll_to_player` (src/main.py, lines
166-188): constrain to `CAMERA_BOUNDARY`, then lerp with `CAMERA_SPEED`. -/
def scroll_to_player (cam p : ℚ × ℚ) : ℚ × ℚ :=
  camera_step CAMERA_SPEED cam p

/-- Squared Euclidean distance between two points. -/
def distSq (a b : ℚ × ℚ) : ℚ :=
  (a.1 - b.1) ^ 2 + (a.2 - b.2) ^ 2

/-! ## Helper lemmas: the base animation update leaves every field except
the clock and the last-drawn key unchanged. -/

@[simp]
theorem animated_sprite_update_attack_animation (s : OrcState) (dt : ℚ) :
    (animated_sprite_update s dt).attack_animation = s.attack_animation := by
  unfold animated_sprite_update; split <;> rfl

@[simp]
theorem animated_sprite_update_is_facing_right (s : OrcState) (dt : ℚ) :
    (animated_sprite_update s dt).is_facing_right = s.is_facing_right := by
  unfold animated_sprite_update; split <;> rfl

@[simp]
theorem animated_sprite_update_animation_state (s : OrcState) (dt : ℚ) :
    (animated_sprite_update s dt).animation_state = s.animation_state := by
  unfold animated_sprite_update; split <;> rfl

@[simp]
theorem animated_sprite_update_change_x (s : OrcState) (dt : ℚ) :
    (animated_sprite_update s dt).change_x = s.change_x := by
  unfold animated_sprite_update; split <;> rfl

@[simp]
theorem animated_sprite_update_change_y (s : OrcState) (dt : ℚ) :
    (animated_sprite_update s dt).change_y = s.change_y := by
  unfold animated_sprite_update; split <;> rfl

/-! ## Claims -/

/-- C1 : the claim states that every (action-or-locomotion, direction) state
code the state machine can select indexes a registered non-empty sequence and
that a missing sequence can only surface fatally at initialization, never
during a per-tick update.  The code violates this: `ANIMATION_STATE_ATTACK_2_LEFT`
is 8 while only eight sequences (indices 0..7) are registered, so walking left
and then triggering attack 2 reaches a state whose key has no registered
sequence; the very next per-tick update indexes `texture_sets[8]` and raises
`IndexError` (embedded as `none`), and initialization never checked the keys. -/
theorem C1_attack_2_left_key_has_no_sequence :
    (orc_run (mkOrcSprite (1/2))
        [OrcEvent.setIntent (-1) 0, OrcEvent.tick (1/10), OrcEvent.attack2]).map
        OrcState.animation_state = some ANIMATION_STATE_ATTACK_2_LEFT ∧
    orc_texture_sets.length = 8 ∧
    orc_texture_sets.get? ANIMATION_STATE_ATTACK_2_LEFT = none ∧
    orc_run (mkOrcSprite (1/2))
        [OrcEvent.setIntent (-1) 0, OrcEvent.tick (1/10), OrcEvent.attack2,
         OrcEvent.tick (1/10)] = none := by
  refine ⟨?_, by decide, by decide, ?_⟩ <;>
    norm_num [orc_run, orc_step, update, animated_sprite_update, attack_1,
      attack_2, mkOrcSprite, orc_texture_sets, sprite_count,
      load_100x100_textures, max_def, ANIMATION_STATE_IDLE_RIGHT,
      ANIMATION_STATE_WALK_RIGHT, ANIMATION_STATE_ATTACK_1_RIGHT,
      ANIMATION_STATE_ATTACK_2_RIGHT, ANIMATION_STATE_IDLE_LEFT,
      ANIMATION_STATE_WALK_LEFT, ANIMATION_STATE_ATTACK_1_LEFT,
      ANIMATION_STATE_ATTACK_2_LEFT]

/-- C10 : a freshly constructed `OrcSprite` has `attack_animation = 0`, faces
right, is in the idle-right animation state, and its clock equals the uniform
sample from `[0,1)` drawn at construction (exposed here as the parameter `r`),
so two constructions with different samples produce different states. -/
theorem C10_fresh_orc_initial_state (r : ℚ) (_h0 : 0 ≤ r) (_h1 : r < 1) :
    (mkOrcSprite r).attack_animation = 0 ∧
    (mkOrcSprite r).is_facing_right = true ∧
    (mkOrcSprite r).animation_state = ANIMATION_STATE_IDLE_RIGHT ∧
    (mkOrcSprite r).texture_clock = r ∧
    ∃ r₁ r₂ : ℚ, 0 ≤ r₁ ∧ r₁ < 1 ∧ 0 ≤ r₂ ∧ r₂ < 1 ∧
      mkOrcSprite r₁ ≠ mkOrcSprite r₂ := by
  refine ⟨rfl, rfl, rfl, rfl, 0, 1/2, le_refl 0, by norm_num, by norm_num,
    by norm_num, fun h => ?_⟩
  have h2 := congrArg OrcState.texture_clock h
  norm_num [mkOrcSprite] at h2

/-- Witness for C10 at the concrete sample 1/2. -/
theorem C10_fresh_orc_initial_state_witness :
    (mkOrcSprite (1/2)).attack_animation = 0 ∧
    (mkOrcSprite (1/2)).is_facing_right = true ∧
    (mkOrcSprite (1/2)).animation_state = ANIMATION_STATE_IDLE_RIGHT ∧
    (mkOrcSprite (1/2)).texture_clock = 1/2 ∧
    ∃ r₁ r₂ : ℚ, 0 ≤ r₁ ∧ r₁ < 1 ∧ 0 ≤ r₂ ∧ r₂ < 1 ∧
      mkOrcSprite r₁ ≠ mkOrcSprite r₂ :=
  C10_fresh_orc_initial_state (1/2) (by norm_num) (by norm_num)

/-- C5 : from a state with no action in progress, `attack_1` (resp. `attack_2`)
starts the action immediately: the action counter becomes 1 (resp. 2), the
clock resets to 0, the facing direction is unchanged and the sequence key
becomes the attack-1 (resp. attack-2) key for the current direction; from a
state with an action in progress both triggers leave the state unchanged. -/
theorem C5_attack_trigger_start_or_drop (s : OrcState) :
    (s.attack_animation = 0 →
      attack_1 s =
        { s with attack_animation := 1, texture_clock := 0,
                 animation_state := (if s.is_facing_right
                   then ANIMATION_STATE_ATTACK_1_RIGHT
                   else ANIMATION_STATE_ATTACK_1_LEFT) } ∧
      attack_2 s =
        { s with attack_animation := 2, texture_clock := 0,
                 animation_state := (if s.is_facing_right
                   then ANIMATION_STATE_ATTACK_2_RIGHT
                   else ANIMATION_STATE_ATTACK_2_LEFT) }) ∧
    (s.attack_animation > 0 → attack_1 s = s ∧ attack_2 s = s) := by
  constructor
  · intro h
    constructor <;> simp [attack_1, attack_2, h]
  · intro h
    constructor <;> simp [attack_1, attack_2, h]

/-- Witness for C5: a fresh sprite starts attack 1 immediately, and a second
trigger of either kind on the resulting state is dropped. -/
theorem C5_attack_trigger_start_or_drop_witness :
    attack_1 (mkOrcSprite 0) =
      { mkOrcSprite 0 with attack_animation := 1, texture_clock := 0,
                           animation_state := (if (mkOrcSprite 0).is_facing_right
                             then ANIMATION_STATE_ATTACK_1_RIGHT
                             else ANIMATION_STATE_ATTACK_1_LEFT) } ∧
    attack_1 (attack_1 (mkOrcSprite 0)) = attack_1 (mkOrcSprite 0) ∧
    attack_2 (attack_1 (mkOrcSprite 0)) = attack_1 (mkOrcSprite 0) :=
  ⟨((C5_attack_trigger_start_or_drop (mkOrcSprite 0)).1 rfl).1,
   ((C5_attack_trigger_start_or_drop (attack_1 (mkOrcSprite 0))).2
      (by simp [attack_1, mkOrcSprite])).1,
   ((C5_attack_trigger_start_or_drop (attack_1 (mkOrcSprite 0))).2
      (by simp [attack_1, mkOrcSprite])).2⟩

/-- C2 counterexample: the claim states that on the tick where the elapsed
clock reaches the action's nominal duration, locomotion selection runs on that
same tick, so the selected key is already an idle/walk key.  In the code the
locomotion branches are `elif` arms of the `attack_animation > 0` test, so they
cannot run on the expiry tick: from a fresh sprite, trigger attack 1 and let
two ticks of 7/10 elapse; on the expiry tick the action counter has reset to 0
and movement intent is zero on both axes, yet the selected key is still the
attack-1-right key, neither an idle nor a walk key. -/
theorem C2_expiry_tick_keeps_attack_key :
    (orc_run (mkOrcSprite (1/2))
        [OrcEvent.attack1, OrcEvent.tick (7/10), OrcEvent.tick (7/10)]).map
        (fun s => (s.attack_animation, s.animation_state, s.change_x, s.change_y)) =
      some (0, ANIMATION_STATE_ATTACK_1_RIGHT, 0, 0) ∧
    ¬ isIdleKey ANIMATION_STATE_ATTACK_1_RIGHT ∧
    ¬ isWalkKey ANIMATION_STATE_ATTACK_1_RIGHT := by
  refine ⟨?_, by decide, by decide⟩
  norm_num [orc_run, orc_step, update, animated_sprite_update, attack_1,
    attack_2, mkOrcSprite, orc_texture_sets, sprite_count,
    load_100x100_textures, max_def, ANIMATION_STATE_IDLE_RIGHT,
    ANIMATION_STATE_WALK_RIGHT, ANIMATION_STATE_ATTACK_1_RIGHT,
    ANIMATION_STATE_ATTACK_2_RIGHT, ANIMATION_STATE_IDLE_LEFT,
    ANIMATION_STATE_WALK_LEFT, ANIMATION_STATE_ATTACK_1_LEFT,
    ANIMATION_STATE_ATTACK_2_LEFT]

/-- C2 (amended): on a tick with an action in progress whose key has a
registered sequence, if the clock advanced by the base animation update has
reached the action's nominal duration (frame count of its sequence divided by
the playback rate of 10), the action counter resets to 0 but the rest of the
state — in particular the sequence key and facing direction — is left
unchanged on that tick, locomotion selection only running on a later tick;
otherwise the action continues unchanged and movement intent and direction
inputs are ignored on that tick. -/
theorem C2_expiry_keeps_key_amended (s : OrcState) (dt : ℚ)
    (frames : List Nat) (ha : s.attack_animation > 0)
    (hf : orc_texture_sets.get? s.animation_state = some frames) :
    update s dt =
      some (if (animated_sprite_update s dt).texture_clock ≥
                (frames.length : ℚ) / 10
            then { animated_sprite_update s dt with attack_animation := 0 }
            else animated_sprite_update s dt) ∧
    ∀ s', update s dt = some s' →
      s'.animation_state = s.animation_state ∧
      s'.is_facing_right = s.is_facing_right := by
  have h1 : update s dt =
      some (if (animated_sprite_update s dt).texture_clock ≥
                (frames.length : ℚ) / 10
            then { animated_sprite_update s dt with attack_animation := 0 }
            else animated_sprite_update s dt) := by
    unfold update
    rw [if_pos (by simpa using ha)]
    rw [show (animated_sprite_update s dt).animation_state = s.animation_state
        from animated_sprite_update_animation_state s dt, hf]
    simp only [animated_sprite_update_animation_state, List.get?_eq_getElem?]
    simp [animated_sprite_update_animation_state]
    split <;> rfl
  refine ⟨h1, fun s' hs' => ?_⟩
  rw [h1] at hs'
  rcases hs' with ⟨rfl⟩
  split <;>
    simp [animated_sprite_update_animation_state,
      animated_sprite_update_is_facing_right]

/-- Witness for C2 (amended) at a concrete mid-attack state with an expired
clock. -/
theorem C2_expiry_keeps_key_amended_witness :
    update { is_facing_right := true, attack_animation := 1, texture_clock := 1,
             animation_state := ANIMATION_STATE_ATTACK_1_RIGHT,
             last_drawn_state := ANIMATION_STATE_ATTACK_1_RIGHT,
             change_x := 0, change_y := 0 } (7/10) =
      some (if (animated_sprite_update
                  { is_facing_right := true, attack_animation := 1,
                    texture_clock := 1,
                    animation_state := ANIMATION_STATE_ATTACK_1_RIGHT,
                    last_drawn_state := ANIMATION_STATE_ATTACK_1_RIGHT,
                    change_x := 0, change_y := 0 } (7/10)).texture_clock ≥
                ((List.range 6).length : ℚ) / 10
            then { animated_sprite_update
                     { is_facing_right := true, attack_animation := 1,
                       texture_clock := 1,
                       animation_state := ANIMATION_STATE_ATTACK_1_RIGHT,
                       last_drawn_state := ANIMATION_STATE_ATTACK_1_RIGHT,
                       change_x := 0, change_y := 0 } (7/10) with
                   attack_animation := 0 }
            else animated_sprite_update
                   { is_facing_right := true, attack_animation := 1,
                     texture_clock := 1,
                     animation_state := ANIMATION_STATE_ATTACK_1_RIGHT,
                     last_drawn_state := ANIMATION_STATE_ATTACK_1_RIGHT,
                     change_x := 0, change_y := 0 } (7/10)) ∧
    ∀ s', update { is_facing_right := true, attack_animation := 1,
                   texture_clock := 1,
                   animation_state := ANIMATION_STATE_ATTACK_1_RIGHT,
                   last_drawn_state := ANIMATION_STATE_ATTACK_1_RIGHT,
                   change_x := 0, change_y := 0 } (7/10) = some s' →
      s'.animation_state = ANIMATION_STATE_ATTACK_1_RIGHT ∧
      s'.is_facing_right = true :=
  C2_expiry_keeps_key_amended
    { is_facing_right := true, attack_animation := 1, texture_clock := 1,
      animation_state := ANIMATION_STATE_ATTACK_1_RIGHT,
      last_drawn_state := ANIMATION_STATE_ATTACK_1_RIGHT,
      change_x := 0, change_y := 0 } (7/10) (List.range 6)
    (by decide) (by decide)

/-- C3 counterexample: the claim states that on every tick that changes the
resolved sequence key the clock reads 0, including idle-to-walk changes.  From
a fresh sprite whose constructor drew the sample 1/2, setting rightward intent
and ticking by 1/10 changes the key from idle-right to walk-right, but the
clock on that tick reads 3/5 (the sample advanced by the tick), not 0: the
base animation update advances the clock before the locomotion branch changes
the key, and the locomotion branches never touch the clock. -/
theorem C3_walk_start_clock_not_zero :
    orc_run (mkOrcSprite (1/2)) [OrcEvent.setIntent 1 0, OrcEvent.tick (1/10)] =
      some { is_facing_right := true, attack_animation := 0,
             texture_clock := 3/5,
             animation_state := ANIMATION_STATE_WALK_RIGHT,
             last_drawn_state := ANIMATION_STATE_IDLE_RIGHT,
             change_x := 1, change_y := 0 } ∧
    ANIMATION_STATE_WALK_RIGHT ≠ ANIMATION_STATE_IDLE_RIGHT ∧
    (3/5 : ℚ) ≠ 0 := by
  refine ⟨?_, by decide, by norm_num⟩
  norm_num [orc_run, orc_step, update, animated_sprite_update, attack_1,
    attack_2, mkOrcSprite, orc_texture_sets, sprite_count,
    load_100x100_textures, max_def, ANIMATION_STATE_IDLE_RIGHT,
    ANIMATION_STATE_WALK_RIGHT, ANIMATION_STATE_ATTACK_1_RIGHT,
    ANIMATION_STATE_ATTACK_2_RIGHT, ANIMATION_STATE_IDLE_LEFT,
    ANIMATION_STATE_WALK_LEFT, ANIMATION_STATE_ATTACK_1_LEFT,
    ANIMATION_STATE_ATTACK_2_LEFT]

/-- C3 (amended): the clock reads 0 on the tick of the key change only for
action starts: `attack_1` and `attack_2` from an action-free state write 0
into the clock as they change the key.  A locomotion-driven key change leaves
the clock untouched on the tick of the change — the base animation update has
already advanced it by the (nonnegative part of the) elapsed time before the
locomotion branch runs — and the clock instead reads 0 from the base animation
update at the start of the next tick, which detects the pending key change. -/
theorem C3_clock_reset_amended (s : OrcState) (dt : ℚ) :
    (s.attack_animation = 0 →
      (attack_1 s).texture_clock = 0 ∧ (attack_2 s).texture_clock = 0) ∧
    (s.animation_state = s.last_drawn_state →
      (animated_sprite_update s dt).texture_clock =
        s.texture_clock + max dt 0) ∧
    (s.animation_state ≠ s.last_drawn_state →
      (animated_sprite_update s dt).texture_clock = 0) := by
  refine ⟨fun h => ?_, fun h => ?_, fun h => ?_⟩
  · constructor <;> simp [attack_1, attack_2, h]
  · simp [animated_sprite_update, h]
  · simp [animated_sprite_update, h]

/-- Witness for C3 (amended): attack 1 on a fresh sprite zeroes the clock; an
unchanged key advances the clock by the tick; a pending key change zeroes it
on the next tick. -/
theorem C3_clock_reset_amended_witness :
    ((attack_1 (mkOrcSprite (1/2))).texture_clock = 0 ∧
     (attack_2 (mkOrcSprite (1/2))).texture_clock = 0) ∧
    (animated_sprite_update (mkOrcSprite (1/2)) (1/10)).texture_clock =
      (mkOrcSprite (1/2)).texture_clock + max (1/10) 0 ∧
    (animated_sprite_update
        { is_facing_right := true, attack_animation := 0, texture_clock := 3/5,
          animation_state := ANIMATION_STATE_WALK_RIGHT,
          last_drawn_state := ANIMATION_STATE_IDLE_RIGHT,
          change_x := 1, change_y := 0 } (1/10)).texture_clock = 0 :=
  ⟨(C3_clock_reset_amended (mkOrcSprite (1/2)) (1/10)).1 rfl,
   (C3_clock_reset_amended (mkOrcSprite (1/2)) (1/10)).2.1 rfl,
   (C3_clock_reset_amended
      { is_facing_right := true, attack_animation := 0, texture_clock := 3/5,
        animation_state := ANIMATION_STATE_WALK_RIGHT,
        last_drawn_state := ANIMATION_STATE_IDLE_RIGHT,
        change_x := 1, change_y := 0 } (1/10)).2.2 (by decide)⟩

/-- C4 : while an action is in progress, every event the engine can deliver —
a tick, an additional attack trigger of either kind, or a write to the
movement-intent fields — preserves the sequence key (hence the direction at
trigger time baked into it) and the facing direction; moreover the action
counter survives every such event unless the event is a tick on which the
advanced clock has reached the nominal duration of the key's sequence, the
only way it returns to 0. -/
theorem C4_action_atomicity (s s' : OrcState) (e : OrcEvent)
    (ha : s.attack_animation > 0) (h : orc_step s e = some s') :
    s'.animation_state = s.animation_state ∧
    s'.is_facing_right = s.is_facing_right ∧
    (s'.attack_animation = s.attack_animation ∨
      (s'.attack_animation = 0 ∧ ∃ dt frames, e = OrcEvent.tick dt ∧
        orc_texture_sets.get? s.animation_state = some frames ∧
        (animated_sprite_update s dt).texture_clock ≥
          (frames.length : ℚ) / 10)) := by
  cases e with
  | attack1 =>
    rcases h with ⟨rfl⟩
    simp [attack_1, ha]
  | attack2 =>
    rcases h with ⟨rfl⟩
    simp [attack_2, ha]
  | setIntent dx dy =>
    rcases h with ⟨rfl⟩
    simp
  | tick dt =>
    have hs : orc_step s (OrcEvent.tick dt) = update s dt := rfl
    rw [hs] at h
    unfold update at h
    rw [if_pos (by simpa using ha)] at h
    rw [show (animated_sprite_update s dt).animation_state = s.animation_state
        from animated_sprite_update_animation_state s dt] at h
    rcases hget : orc_texture_sets.get? s.animation_state with _ | frames
    · rw [hget] at h; exact absurd h (by simp)
    · rw [hget] at h
      simp only at h
      by_cases hc : (animated_sprite_update s dt).texture_clock ≥
          (frames.length : ℚ) / 10
      · rw [if_pos hc] at h
        rcases h with ⟨rfl⟩
        refine ⟨by simp, by simp, Or.inr ⟨rfl, dt, frames, rfl, rfl, hc⟩⟩
      · rw [if_neg hc] at h
        rcases h with ⟨rfl⟩
        simp

/-- Witness for C4: a second attack-1 trigger on a mid-attack state preserves
the key, the facing direction and the action counter. -/
theorem C4_action_atomicity_witness :
    (attack_1 { is_facing_right := true, attack_animation := 1,
                texture_clock := 0,
                animation_state := ANIMATION_STATE_ATTACK_1_RIGHT,
                last_drawn_state := ANIMATION_STATE_IDLE_RIGHT,
                change_x := 0, change_y := 0 }).animation_state =
      ANIMATION_STATE_ATTACK_1_RIGHT ∧
    (attack_1 { is_facing_right := true, attack_animation := 1,
                texture_clock := 0,
                animation_state := ANIMATION_STATE_ATTACK_1_RIGHT,
                last_drawn_state := ANIMATION_STATE_IDLE_RIGHT,
                change_x := 0, change_y := 0 }).is_facing_right = true ∧
    ((attack_1 { is_facing_right := true, attack_animation := 1,
                 texture_clock := 0,
                 animation_state := ANIMATION_STATE_ATTACK_1_RIGHT,
                 last_drawn_state := ANIMATION_STATE_IDLE_RIGHT,
                 change_x := 0, change_y := 0 }).attack_animation = 1 ∨
      ((attack_1 { is_facing_right := true, attack_animation := 1,
                   texture_clock := 0,
                   animation_state := ANIMATION_STATE_ATTACK_1_RIGHT,
                   last_drawn_state := ANIMATION_STATE_IDLE_RIGHT,
                   change_x := 0, change_y := 0 }).attack_animation = 0 ∧
        ∃ dt frames, OrcEvent.attack1 = OrcEvent.tick dt ∧
          orc_texture_sets.get? ANIMATION_STATE_ATTACK_1_RIGHT = some frames ∧
          (animated_sprite_update
              { is_facing_right := true, attack_animation := 1,
                texture_clock := 0,
                animation_state := ANIMATION_STATE_ATTACK_1_RIGHT,
                last_drawn_state := ANIMATION_STATE_IDLE_RIGHT,
                change_x := 0, change_y := 0 } dt).texture_clock ≥
            (frames.length : ℚ) / 10)) :=
  C4_action_atomicity
    { is_facing_right := true, attack_animation := 1, texture_clock := 0,
      animation_state := ANIMATION_STATE_ATTACK_1_RIGHT,
      last_drawn_state := ANIMATION_STATE_IDLE_RIGHT,
      change_x := 0, change_y := 0 }
    (attack_1 { is_facing_right := true, attack_animation := 1,
                texture_clock := 0,
                animation_state := ANIMATION_STATE_ATTACK_1_RIGHT,
                last_drawn_state := ANIMATION_STATE_IDLE_RIGHT,
                change_x := 0, change_y := 0 })
    OrcEvent.attack1 (by decide) rfl

/-- Characterization of `update` on ticks with no action in progress: the
result is the base animation update with facing and key overwritten by the
locomotion branch that fires. -/
theorem update_locomotion_eq (s : OrcState) (dt : ℚ)
    (h : s.attack_animation = 0) :
    update s dt = some
      { animated_sprite_update s dt with
        is_facing_right :=
          (if s.change_x < 0 then false
           else if s.change_x > 0 then true
           else s.is_facing_right),
        animation_state :=
          (if s.change_x < 0 then ANIMATION_STATE_WALK_LEFT
           else if s.change_x > 0 then ANIMATION_STATE_WALK_RIGHT
           else if s.change_y ≠ 0 then
             (if s.is_facing_right then ANIMATION_STATE_WALK_RIGHT
              else ANIMATION_STATE_WALK_LEFT)
           else
             (if s.is_facing_right then ANIMATION_STATE_IDLE_RIGHT
              else ANIMATION_STATE_IDLE_LEFT)) } := by
  obtain ⟨fc, atk, clk, ast, lst, cx, cy⟩ := s
  simp only [OrcState.attack_animation] at h
  subst h
  simp only [update, animated_sprite_update]
  split_ifs <;> simp_all

/-- C6 : on a tick with no action in progress, negative horizontal intent sets
the facing to left and selects the walk-left key; positive horizontal intent
sets the facing to right and selects the walk-right key; zero horizontal with
nonzero vertical intent selects the walk key of the unchanged current facing;
zero intent on both axes selects the idle key of the unchanged current facing.
Hence the selected key is an idle key iff both axes are zero and a walk key
otherwise, and the facing only changes when horizontal intent is nonzero. -/
theorem C6_locomotion_selection (s : OrcState) (dt : ℚ)
    (h : s.attack_animation = 0) :
    ∃ s', update s dt = some s' ∧
      (s.change_x < 0 → s'.is_facing_right = false ∧
        s'.animation_state = ANIMATION_STATE_WALK_LEFT) ∧
      (s.change_x > 0 → s'.is_facing_right = true ∧
        s'.animation_state = ANIMATION_STATE_WALK_RIGHT) ∧
      (s.change_x = 0 → s.change_y ≠ 0 →
        s'.is_facing_right = s.is_facing_right ∧
        s'.animation_state = (if s.is_facing_right then ANIMATION_STATE_WALK_RIGHT
          else ANIMATION_STATE_WALK_LEFT)) ∧
      (s.change_x = 0 → s.change_y = 0 →
        s'.is_facing_right = s.is_facing_right ∧
        s'.animation_state = (if s.is_facing_right then ANIMATION_STATE_IDLE_RIGHT
          else ANIMATION_STATE_IDLE_LEFT)) ∧
      (isIdleKey s'.animation_state ↔ s.change_x = 0 ∧ s.change_y = 0) ∧
      (isWalkKey s'.animation_state ↔ ¬(s.change_x = 0 ∧ s.change_y = 0)) ∧
      (s'.is_facing_right ≠ s.is_facing_right → s.change_x ≠ 0) := by
  refine ⟨_, update_locomotion_eq s dt h, ?_, ?_, ?_, ?_, ?_, ?_, ?_⟩
  · intro hx
    constructor <;> simp [hx]
  · intro hx
    constructor <;> simp [hx, not_lt_of_gt hx]
  · intro hx hy
    constructor <;> simp [hx, hy, lt_irrefl]
  · intro hx hy
    constructor <;> simp [hx, hy, lt_irrefl]
  · rcases lt_trichotomy s.change_x 0 with hx | hx | hx
    · simp [hx, hx.ne, isIdleKey, ANIMATION_STATE_WALK_LEFT,
        ANIMATION_STATE_IDLE_RIGHT, ANIMATION_STATE_IDLE_LEFT]
    · rcases eq_or_ne s.change_y 0 with hy | hy
      · rcases hfc : s.is_facing_right <;>
          simp [hx, hy, hfc, lt_irrefl, isIdleKey, ANIMATION_STATE_IDLE_RIGHT,
            ANIMATION_STATE_IDLE_LEFT]
      · rcases hfc : s.is_facing_right <;>
          simp [hx, hy, hfc, lt_irrefl, isIdleKey, ANIMATION_STATE_IDLE_RIGHT,
            ANIMATION_STATE_IDLE_LEFT, ANIMATION_STATE_WALK_RIGHT,
            ANIMATION_STATE_WALK_LEFT]
    · simp [hx, hx.ne', not_lt_of_gt hx, isIdleKey,
        ANIMATION_STATE_WALK_RIGHT, ANIMATION_STATE_IDLE_RIGHT,
        ANIMATION_STATE_IDLE_LEFT]
  · rcases lt_trichotomy s.change_x 0 with hx | hx | hx
    · simp [hx, hx.ne, isWalkKey, ANIMATION_STATE_WALK_LEFT,
        ANIMATION_STATE_WALK_RIGHT]
    · rcases eq_or_ne s.change_y 0 with hy | hy
      · rcases hfc : s.is_facing_right <;>
          simp [hx, hy, hfc, lt_irrefl, isWalkKey, ANIMATION_STATE_IDLE_RIGHT,
            ANIMATION_STATE_IDLE_LEFT, ANIMATION_STATE_WALK_RIGHT,
            ANIMATION_STATE_WALK_LEFT]
      · rcases hfc : s.is_facing_right <;>
          simp [hx, hy, hfc, lt_irrefl, isWalkKey, ANIMATION_STATE_WALK_RIGHT,
            ANIMATION_STATE_WALK_LEFT]
    · simp [hx, hx.ne', not_lt_of_gt hx, isWalkKey,
        ANIMATION_STATE_WALK_RIGHT, ANIMATION_STATE_WALK_LEFT]
  · rcases lt_trichotomy s.change_x 0 with hx | hx | hx
    · intro _; exact hx.ne
    · intro hne
      exact absurd (by simp [hx, lt_irrefl]) hne
    · intro _; exact hx.ne'

/-- Witness for C6: a fresh sprite given leftward intent turns to face left
and selects the walk-left key on the next tick. -/
theorem C6_locomotion_selection_witness :
    (update { is_facing_right := true, attack_animation := 0,
              texture_clock := 1/2,
              animation_state := ANIMATION_STATE_IDLE_RIGHT,
              last_drawn_state := ANIMATION_STATE_IDLE_RIGHT,
              change_x := -5, change_y := 0 } (1/10)).map
      (fun t => (t.is_facing_right, t.animation_state)) =
      some (false, ANIMATION_STATE_WALK_LEFT) := by
  obtain ⟨s', hs', hleft, -⟩ :=
    C6_locomotion_selection
      { is_facing_right := true, attack_animation := 0, texture_clock := 1/2,
        animation_state := ANIMATION_STATE_IDLE_RIGHT,
        last_drawn_state := ANIMATION_STATE_IDLE_RIGHT,
        change_x := -5, change_y := 0 } (1/10) rfl
  obtain ⟨hf, hk⟩ := hleft (by norm_num)
  rw [hs']
  simp [hf, hk]

/-- C7 : for every combination of the four directional key flags, the derived
movement intent is zero on an axis whose two opposing flags are both set, and a
single pressed flag on an axis yields intent of magnitude `player_speed` in
that flag's direction. -/
theorem C7_opposing_key_cancellation (k : KeyFlags) (speed : ℚ) :
    ((k.left_pressed && k.right_pressed) = true →
      (update_player_speed k speed).1 = 0) ∧
    ((k.up_pressed && k.down_pressed) = true →
      (update_player_speed k speed).2 = 0) ∧
    ((k.left_pressed && !k.right_pressed) = true →
      (update_player_speed k speed).1 = -speed) ∧
    ((k.right_pressed && !k.left_pressed) = true →
      (update_player_speed k speed).1 = speed) ∧
    ((k.up_pressed && !k.down_pressed) = true →
      (update_player_speed k speed).2 = speed) ∧
    ((k.down_pressed && !k.up_pressed) = true →
      (update_player_speed k speed).2 = -speed) := by
  obtain ⟨u, d, l, r⟩ := k
  cases u <;> cases d <;> cases l <;> cases r <;>
    simp [update_player_speed]

/-- Witness for C7: all four flags held cancel both axes; left-only plus
up-only give signed intent of magnitude 5. -/
theorem C7_opposing_key_cancellation_witness :
    (update_player_speed ⟨true, true, true, true⟩ 5).1 = 0 ∧
    (update_player_speed ⟨true, true, true, true⟩ 5).2 = 0 ∧
    (update_player_speed ⟨true, false, true, false⟩ 5).1 = -5 ∧
    (update_player_speed ⟨true, false, true, false⟩ 5).2 = 5 :=
  ⟨(C7_opposing_key_cancellation ⟨true, true, true, true⟩ 5).1 rfl,
   (C7_opposing_key_cancellation ⟨true, true, true, true⟩ 5).2.1 rfl,
   (C7_opposing_key_cancellation ⟨true, false, true, false⟩ 5).2.2.1 rfl,
   (C7_opposing_key_cancellation ⟨true, false, true, false⟩ 5).2.2.2.2.1 rfl⟩

/-- One-axis analysis of smoothing against the boundary constraint: after one
interpolation step with factor `f ∈ [0,1]`, the offset from the new camera
position to its new constrained target is exactly `1 − f` times the previous
offset (the boundary stays active, or the axis was already at its target). -/
theorem constrain_axis_offset_scales (c lo hi p f : ℚ)
    (hlohi : lo ≤ hi) (hf0 : 0 ≤ f) (hf1 : f ≤ 1) :
    constrain_axis (c + f * (constrain_axis c lo hi p - c)) lo hi p -
      (c + f * (constrain_axis c lo hi p - c)) =
    (1 - f) * (constrain_axis c lo hi p - c) := by
  by_cases h1 : p - c > hi
  · have ht : constrain_axis c lo hi p = p - hi := by
      unfold constrain_axis; rw [if_pos h1]
    rw [ht]
    rcases eq_or_lt_of_le hf1 with hf | hf
    · subst hf
      have hc : p - (c + 1 * (p - hi - c)) = hi := by ring
      unfold constrain_axis
      rw [if_neg (by rw [hc]; exact lt_irrefl hi),
        if_neg (by rw [hc]; exact not_lt.mpr hlohi)]
      ring
    · have h2 : p - (c + f * (p - hi - c)) > hi := by
        nlinarith [mul_pos (by linarith : (0:ℚ) < 1 - f)
          (by linarith : (0:ℚ) < p - c - hi)]
      unfold constrain_axis
      rw [if_pos h2]
      ring
  · by_cases h3 : p - c < lo
    · have ht : constrain_axis c lo hi p = p - lo := by
        unfold constrain_axis; rw [if_neg h1, if_pos h3]
      rw [ht]
      rcases eq_or_lt_of_le hf1 with hf | hf
      · subst hf
        have hc : p - (c + 1 * (p - lo - c)) = lo := by ring
        unfold constrain_axis
        rw [if_neg (by rw [hc]; exact not_lt.mpr hlohi),
          if_neg (by rw [hc]; exact lt_irrefl lo)]
        ring
      · have h2 : p - (c + f * (p - lo - c)) < lo := by
          nlinarith [mul_pos (by linarith : (0:ℚ) < 1 - f)
            (by linarith : (0:ℚ) < lo - (p - c))]
        unfold constrain_axis
        rw [if_neg (by push_neg; linarith), if_pos h2]
        ring
    · have ht : constrain_axis c lo hi p = c := by
        unfold constrain_axis; rw [if_neg h1, if_neg h3]
      rw [ht]
      have hc : c + f * (c - c) = c := by ring
      rw [hc]
      unfold constrain_axis
      rw [if_neg h1, if_neg h3]
      ring

/-- Squares of negated differences agree. -/
theorem sq_of_sub_eq (x y u : ℚ) (h : y - x = u) : (x - y) ^ 2 = u ^ 2 := by
  rw [show x - y = -(y - x) by ring, neg_sq, h]

/-- After one camera step with factor `f ∈ [0,1]`, the squared distance from
the camera to its constrained target scales by exactly `(1 − f)²`. -/
theorem camera_step_distSq (f : ℚ) (cam p : ℚ × ℚ)
    (hf0 : 0 ≤ f) (hf1 : f ≤ 1) :
    distSq (camera_step f cam p)
      (constrain_boundary_xy (camera_step f cam p) CAMERA_BOUNDARY p) =
    (1 - f) ^ 2 * distSq cam (constrain_boundary_xy cam CAMERA_BOUNDARY p) := by
  have hb : CAMERA_BOUNDARY.left ≤ CAMERA_BOUNDARY.right := by
    norm_num [CAMERA_BOUNDARY, HORIZONTAL_BOUNDARY, DEFAULT_WINDOW_WIDTH,
      VIEWPORT_MARGIN]
  have hb2 : CAMERA_BOUNDARY.bottom ≤ CAMERA_BOUNDARY.top := by
    norm_num [CAMERA_BOUNDARY, VERTICAL_BOUNDARY, DEFAULT_WINDOW_HEIGHT,
      VIEWPORT_MARGIN]
  obtain ⟨c1, c2⟩ := cam
  obtain ⟨p1, p2⟩ := p
  have hx := constrain_axis_offset_scales c1 CAMERA_BOUNDARY.left
    CAMERA_BOUNDARY.right p1 f hb hf0 hf1
  have hy := constrain_axis_offset_scales c2 CAMERA_BOUNDARY.bottom
    CAMERA_BOUNDARY.top p2 f hb2 hf0 hf1
  simp only [camera_step, lerp_2d, constrain_boundary_xy, distSq] at hx hy ⊢
  rw [sq_of_sub_eq _ _ _ hx, sq_of_sub_eq _ _ _ hy]
  ring

/-- C8 : the boundary half-extents derived from the constants are 400 and 200
(window 1600×1200 halved minus the 400-pixel margin); a player offset inside
`[-W,W]×[-H,H]` leaves the step-1 target exactly at the previous camera
position; an offset beyond an extent on an axis shifts the target so the
player sits exactly on that boundary edge; and camera (0,0) with player
(500,0) yields step-1 target (100,0). -/
theorem C8_camera_dead_zone (cam p : ℚ × ℚ) :
    HORIZONTAL_BOUNDARY = 400 ∧ VERTICAL_BOUNDARY = 200 ∧
    (-HORIZONTAL_BOUNDARY ≤ p.1 - cam.1 → p.1 - cam.1 ≤ HORIZONTAL_BOUNDARY →
     -VERTICAL_BOUNDARY ≤ p.2 - cam.2 → p.2 - cam.2 ≤ VERTICAL_BOUNDARY →
     constrain_boundary_xy cam CAMERA_BOUNDARY p = cam) ∧
    (HORIZONTAL_BOUNDARY < p.1 - cam.1 →
      p.1 - (constrain_boundary_xy cam CAMERA_BOUNDARY p).1 =
        HORIZONTAL_BOUNDARY) ∧
    (p.1 - cam.1 < -HORIZONTAL_BOUNDARY →
      p.1 - (constrain_boundary_xy cam CAMERA_BOUNDARY p).1 =
        -HORIZONTAL_BOUNDARY) ∧
    (VERTICAL_BOUNDARY < p.2 - cam.2 →
      p.2 - (constrain_boundary_xy cam CAMERA_BOUNDARY p).2 =
        VERTICAL_BOUNDARY) ∧
    (p.2 - cam.2 < -VERTICAL_BOUNDARY →
      p.2 - (constrain_boundary_xy cam CAMERA_BOUNDARY p).2 =
        -VERTICAL_BOUNDARY) ∧
    constrain_boundary_xy (0, 0) CAMERA_BOUNDARY (500, 0) = (100, 0) := by
  have hH : HORIZONTAL_BOUNDARY = 400 := by
    norm_num [HORIZONTAL_BOUNDARY, DEFAULT_WINDOW_WIDTH, VIEWPORT_MARGIN]
  have hV : VERTICAL_BOUNDARY = 200 := by
    norm_num [VERTICAL_BOUNDARY, DEFAULT_WINDOW_HEIGHT, VIEWPORT_MARGIN]
  refine ⟨hH, hV, ?_, ?_, ?_, ?_, ?_, ?_⟩
  · intro h1 h2 h3 h4
    simp only [constrain_boundary_xy, CAMERA_BOUNDARY, constrain_axis]
    rw [if_neg (by push_neg; linarith), if_neg (by push_neg; linarith),
      if_neg (by push_neg; linarith), if_neg (by push_neg; linarith)]
  · intro h1
    simp only [constrain_boundary_xy, CAMERA_BOUNDARY, constrain_axis]
    rw [if_pos (by linarith)]
    ring
  · intro h1
    have hHpos : (0:ℚ) ≤ HORIZONTAL_BOUNDARY := by rw [hH]; norm_num
    simp only [constrain_boundary_xy, CAMERA_BOUNDARY, constrain_axis]
    rw [if_neg (by push_neg; linarith), if_pos (by linarith)]
    ring
  · intro h1
    simp only [constrain_boundary_xy, CAMERA_BOUNDARY, constrain_axis]
    rw [if_pos (by linarith)]
    ring
  · intro h1
    have hVpos : (0:ℚ) ≤ VERTICAL_BOUNDARY := by rw [hV]; norm_num
    simp only [constrain_boundary_xy, CAMERA_BOUNDARY, constrain_axis]
    rw [if_neg (by push_neg; linarith), if_pos (by linarith)]
    ring
  · norm_num [constrain_boundary_xy, constrain_axis, CAMERA_BOUNDARY,
      HORIZONTAL_BOUNDARY, VERTICAL_BOUNDARY, DEFAULT_WINDOW_WIDTH,
      DEFAULT_WINDOW_HEIGHT, VIEWPORT_MARGIN]

/-- Witness for C8: a centred player is left alone by the constraint, and the
scenario player at (500,0) from camera (0,0) is clamped to target (100,0),
sitting exactly on the 400-pixel edge. -/
theorem C8_camera_dead_zone_witness :
    HORIZONTAL_BOUNDARY = 400 ∧ VERTICAL_BOUNDARY = 200 ∧
    constrain_boundary_xy ((3 : ℚ), (4 : ℚ)) CAMERA_BOUNDARY
      ((3 : ℚ), (4 : ℚ)) = ((3 : ℚ), (4 : ℚ)) ∧
    ((500, 0) : ℚ × ℚ).1 -
      (constrain_boundary_xy (0, 0) CAMERA_BOUNDARY (500, 0)).1 =
      HORIZONTAL_BOUNDARY ∧
    constrain_boundary_xy (0, 0) CAMERA_BOUNDARY (500, 0) = (100, 0) := by
  have hH : HORIZONTAL_BOUNDARY = 400 := by
    norm_num [HORIZONTAL_BOUNDARY, DEFAULT_WINDOW_WIDTH, VIEWPORT_MARGIN]
  have hV : VERTICAL_BOUNDARY = 200 := by
    norm_num [VERTICAL_BOUNDARY, DEFAULT_WINDOW_HEIGHT, VIEWPORT_MARGIN]
  refine ⟨(C8_camera_dead_zone ((3 : ℚ), (4 : ℚ)) ((3 : ℚ), (4 : ℚ))).1,
    (C8_camera_dead_zone ((3 : ℚ), (4 : ℚ)) ((3 : ℚ), (4 : ℚ))).2.1,
    (C8_camera_dead_zone ((3 : ℚ), (4 : ℚ)) ((3 : ℚ), (4 : ℚ))).2.2.1
      (by rw [hH]; norm_num) (by rw [hH]; norm_num)
      (by rw [hV]; norm_num) (by rw [hV]; norm_num),
    (C8_camera_dead_zone ((0 : ℚ), (0 : ℚ)) ((500 : ℚ), (0 : ℚ))).2.2.2.1
      (by rw [hH]; norm_num),
    (C8_camera_dead_zone ((0 : ℚ), (0 : ℚ)) ((500 : ℚ), (0 : ℚ))).2.2.2.2.2.2.2⟩

/-- C9 : the camera update is the componentwise interpolation
`previous + factor · (target − previous)` with the configured factor 1/10;
factor 1 lands exactly on the step-1 target in one update; for every factor
strictly between 0 and 1, whenever the camera is not already at its
constrained target, one update strictly decreases the squared distance between
the camera and its constrained target (by the exact factor `(1−f)²`, so it
need never reach zero in finitely many ticks); and from camera (0,0) and
player (500,0) — step-1 target (100,0) — the configured update gives (10,0). -/
theorem C9_camera_smoothing (cam p : ℚ × ℚ) (f : ℚ)
    (hf0 : 0 < f) (hf1 : f < 1)
    (hpos : 0 < distSq cam (constrain_boundary_xy cam CAMERA_BOUNDARY p)) :
    CAMERA_SPEED = 1/10 ∧
    scroll_to_player cam p =
      (cam.1 + CAMERA_SPEED *
        ((constrain_boundary_xy cam CAMERA_BOUNDARY p).1 - cam.1),
       cam.2 + CAMERA_SPEED *
        ((constrain_boundary_xy cam CAMERA_BOUNDARY p).2 - cam.2)) ∧
    camera_step 1 cam p = constrain_boundary_xy cam CAMERA_BOUNDARY p ∧
    distSq (camera_step f cam p)
      (constrain_boundary_xy (camera_step f cam p) CAMERA_BOUNDARY p) <
      distSq cam (constrain_boundary_xy cam CAMERA_BOUNDARY p) ∧
    scroll_to_player (0, 0) (500, 0) = (10, 0) := by
  refine ⟨rfl, rfl, ?_, ?_, ?_⟩
  · unfold camera_step lerp_2d constrain_boundary_xy
    simp only [Prod.mk.injEq]
    constructor <;> ring
  · rw [camera_step_distSq f cam p hf0.le hf1.le]
    have hsq : (1 - f) ^ 2 < 1 :=
      pow_lt_one₀ (by linarith) (by linarith) (by norm_num)
    exact mul_lt_of_lt_one_left hpos hsq
  · norm_num [scroll_to_player, camera_step, lerp_2d, constrain_boundary_xy,
      constrain_axis, CAMERA_BOUNDARY, CAMERA_SPEED, HORIZONTAL_BOUNDARY,
      VERTICAL_BOUNDARY, DEFAULT_WINDOW_WIDTH, DEFAULT_WINDOW_HEIGHT,
      VIEWPORT_MARGIN]

/-- Witness for C9 at camera (0,0), player (500,0), factor 1/2. -/
theorem C9_camera_smoothing_witness :
    distSq (camera_step (1/2) (0, 0) (500, 0))
      (constrain_boundary_xy (camera_step (1/2) (0, 0) (500, 0))
        CAMERA_BOUNDARY (500, 0)) <
      distSq (0, 0) (constrain_boundary_xy (0, 0) CAMERA_BOUNDARY (500, 0)) ∧
    scroll_to_player (0, 0) (500, 0) = (10, 0) :=
  ⟨(C9_camera_smoothing (0, 0) (500, 0) (1/2) (by norm_num) (by norm_num)
      (by norm_num [distSq, constrain_boundary_xy, constrain_axis,
        CAMERA_BOUNDARY, HORIZONTAL_BOUNDARY, VERTICAL_BOUNDARY,
        DEFAULT_WINDOW_WIDTH, DEFAULT_WINDOW_HEIGHT,
        VIEWPORT_MARGIN])).2.2.2.1,
   (C9_camera_smoothing (0, 0) (500, 0) (1/2) (by norm_num) (by norm_num)
      (by norm_num [distSq, constrain_boundary_xy, constrain_axis,
        CAMERA_BOUNDARY, HORIZONTAL_BOUNDARY, VERTICAL_BOUNDARY,
        DEFAULT_WINDOW_WIDTH, DEFAULT_WINDOW_HEIGHT,
        VIEWPORT_MARGIN])).2.2.2.2⟩

end AdventureGame
